import Mathlib

/-!
# Verification of the Agentic-Suite specification

A shallow embedding, in Lean 4, of the parts of the Agentic-Suite repository
that the specification's testable claims are about:

* `TalkToDB/mongoConnect.py` (`MongoDBClient`: `list_collections`,
  `find_many`, `count_documents`, `aggregate`, `list_indexes`,
  `get_collection_stats`),
* `TalkToDB/mongoDBExplorer.py` (`MongoDBExplorer`: `explore_database`,
  `_explore_collection`, `_infer_schema`, `_identify_relationships`,
  `execute_query`, `execute_aggregation`, `generate_notes`),
* `TalkToDB/DB_Interfaces/SQLDBExplorer.py` (`SQLDatabaseExplorer`),
* `Financial_Research_Company_USStockExchange/InfoFetch.py`
  (`StockAnalyzer.get_latest_trading_day`),
* `Financial_Research_Company_USStockExchange/cli_tool.py` (`main`),
* `TalkToCSV/backend/code_executor.py` (`CodeExecutor.execute_code`,
  `_is_code_safe`).

Python dynamic values are modelled by the inductive type `PyVal`; Python
exceptions are modelled with `Except`; the database drivers (pymongo,
SQLAlchemy) are modelled by explicit oracle parameters describing the data
the backend holds and whether each backend call fails.
-/

set_option autoImplicit false

/-- A Python runtime value, as far as the embedded code inspects values:
integers, strings, `None`, lists, dicts (as key/value association lists in
insertion order), pandas DataFrames and callables. -/
inductive PyVal where
  | int (n : Int)
  | str (s : String)
  | pynone
  | list (elems : List PyVal)
  | dict (entries : List (String × PyVal))
  | frame (rows : List (List (String × String)))
  | func (name : String)
deriving Repr

/-- A MongoDB document / SQL row: field names mapped to values, in order. -/
abbrev Doc := List (String × PyVal)

mutual

/-- Structural equality of Python values (the `==` the embedded code relies
on when comparing document fields against filter values). -/
def pyBeq : PyVal → PyVal → Bool
  | .int a, .int b => a == b
  | .str a, .str b => a == b
  | .pynone, .pynone => true
  | .list a, .list b => pyBeqList a b
  | .dict a, .dict b => pyBeqDict a b
  | .frame a, .frame b => a == b
  | .func a, .func b => a == b
  | _, _ => false

/-- Elementwise equality of lists of Python values. -/
def pyBeqList : List PyVal → List PyVal → Bool
  | [], [] => true
  | x :: xs, y :: ys => pyBeq x y && pyBeqList xs ys
  | _, _ => false

/-- Entrywise equality of Python dict entry lists. -/
def pyBeqDict : List (String × PyVal) → List (String × PyVal) → Bool
  | [], [] => true
  | (k1, v1) :: xs, (k2, v2) :: ys => k1 == k2 && pyBeq v1 v2 && pyBeqDict xs ys
  | _, _ => false

end

/-- `type(value).__name__` for an embedded Python value. -/
def pyTypeName : PyVal → String
  | .int _ => "int"
  | .str _ => "str"
  | .pynone => "NoneType"
  | .list _ => "list"
  | .dict _ => "dict"
  | .frame _ => "DataFrame"
  | .func _ => "function"

mutual

/-- `str(value)` for an embedded Python value (a faithful-enough rendering:
only its length and identity matter to the embedded code, which truncates it
to 100 characters for schema samples). -/
def pyStr : PyVal → String
  | .int n => toString n
  | .str s => s
  | .pynone => "None"
  | .list elems => "[" ++ pyStrList elems ++ "]"
  | .dict entries => "\x7b" ++ pyStrDict entries ++ "\x7d"
  | .frame _ => "DataFrame"
  | .func n => "<function " ++ n ++ ">"

/-- Comma-separated rendering of a list of Python values. -/
def pyStrList : List PyVal → String
  | [] => ""
  | [x] => pyStr x
  | x :: xs => pyStr x ++ ", " ++ pyStrList xs

/-- Comma-separated rendering of Python dict entries. -/
def pyStrDict : List (String × PyVal) → String
  | [] => ""
  | [(k, v)] => k ++ ": " ++ pyStr v
  | (k, v) :: xs => k ++ ": " ++ pyStr v ++ ", " ++ pyStrDict xs

end

/-- Python truthiness (`if value:`) for an embedded value.  A pandas
DataFrame raises on truth testing; the embedded code never truth-tests a
frame, so `true` here is an unreachable placeholder. -/
def pyTruthy : PyVal → Bool
  | .int n => n != 0
  | .str s => s != ""
  | .pynone => false
  | .list elems => !elems.isEmpty
  | .dict entries => !entries.isEmpty
  | .frame _ => true
  | .func _ => true

/-- `d.get(key, default)` on a Python dict modelled as an association list. -/
def dictGet (d : List (String × PyVal)) (key : String) (dflt : PyVal) : PyVal :=
  (d.lookup key).getD dflt

/-- Does the character list start with the pattern? -/
def startsWithList : List Char → List Char → Bool
  | _, [] => true
  | [], _ :: _ => false
  | c :: cs, p :: ps => c == p && startsWithList cs ps

/-- Python `s.endswith(suffix)`, computed on character lists. -/
def strEndsWith (s suffix : String) : Bool :=
  startsWithList s.toList.reverse suffix.toList.reverse

/-- Python slicing `s[:n]`, computed on character lists. -/
def strTake (s : String) (n : Nat) : String :=
  (s.toList.take n).asString

/-- A Python exception, split the way the embedded `try/except` blocks split
it: `pymongo.errors.PyMongoError` subclasses versus every other exception
(`TypeError`, `ValueError`, ...). -/
inductive PyErr where
  | pyMongo (msg : String)
  | other (msg : String)
deriving Repr, DecidableEq

/-! ## The MongoDB backend model

`MongoCollection` is the server-side state of one collection; a database is
a list of collections.  Driver failures are injected through explicit oracle
parameters (`driverFail`, per-call `Bool`s), since whether a backend call
fails is external input to the code under verification. -/

/-- Server-side state of one MongoDB collection: its documents, its index
information (what `list_indexes` would return) and its `collStats` payload. -/
structure MongoCollection where
  name : String
  docs : List Doc
  indexes : List Doc
  stats : Doc
deriving Repr

/-- A MongoDB database: a list of collections. -/
abbrev MongoDb := List MongoCollection

/-- The documents of the named collection; querying a collection that does
not exist is not an error in MongoDB, it simply yields no documents. -/
def collDocs (db : MongoDb) (collectionName : String) : List Doc :=
  ((db.find? (fun c => c.name == collectionName)).map (fun c => c.docs)).getD []

/-- Index information of the named collection (empty if absent). -/
def collIndexes (db : MongoDb) (collectionName : String) : List Doc :=
  ((db.find? (fun c => c.name == collectionName)).map (fun c => c.indexes)).getD []

/-- `collStats` payload of the named collection (empty if absent). -/
def collStats (db : MongoDb) (collectionName : String) : Doc :=
  ((db.find? (fun c => c.name == collectionName)).map (fun c => c.stats)).getD []

/-- Does a document match a MongoDB equality filter (`{field: value, ...}`)?
The empty filter `{}` matches every document. -/
def docMatches (filterEntries : List (String × PyVal)) (doc : Doc) : Bool :=
  filterEntries.all (fun kv =>
    match doc.lookup kv.1 with
    | some v => pyBeq v kv.2
    | none => false)

/-- pymongo validates that the query filter is a mapping when `find` /
`count_documents` is called; anything else raises `TypeError` (which is not
a `PyMongoError`). -/
def checkFilter : PyVal → Except PyErr (List (String × PyVal))
  | .dict entries => .ok entries
  | v => .error (.other ("TypeError: filter must be a mapping, got " ++ pyTypeName v))

/-- pymongo validates the projection type at `find` time: a mapping (or
`None`) is accepted, anything else raises `TypeError`. -/
def checkProjectionType : PyVal → Except PyErr Unit
  | .dict _ => .ok ()
  | .pynone => .ok ()
  | v => .error (.other ("TypeError: projection must be a mapping or None, got " ++ pyTypeName v))

/-- Apply an (already type-checked) include-style projection to one
document: `_id` and the fields projected with a truthy value are kept. -/
def projectDoc (entries : List (String × PyVal)) (doc : Doc) : Doc :=
  doc.filter (fun kv => kv.1 == "_id" || entries.any (fun e => e.1 == kv.1 && pyTruthy e.2))

/-- Apply the projection parameter after validation (`.pynone` keeps the
documents whole). -/
def applyProjection (projection : PyVal) (docs : List Doc) : List Doc :=
  match projection with
  | .dict entries => docs.map (projectDoc entries)
  | _ => docs

/-- Parse the items of a list sort specification: each must be a
`(field, direction)` pair with direction `1` or `-1`. -/
def parseSortItems : List PyVal → Option (List (String × Int))
  | [] => some []
  | .list [.str f, .int d] :: rest =>
    if d = 1 ∨ d = -1 then (parseSortItems rest).map (fun r => (f, d) :: r) else none
  | _ => none

/-- Parse a `Cursor.sort` argument: a single field name or a list of
`(field, direction)` pairs; anything else is a `TypeError`. -/
def parseSortSpec : PyVal → Option (List (String × Int))
  | .str s => some [(s, 1)]
  | .list items => parseSortItems items
  | _ => none

/-- `if sort: cursor.sort(sort)`: a falsy sort argument is skipped; a truthy
one must be a valid sort specification or pymongo raises `TypeError`. -/
def checkSort (sort : PyVal) : Except PyErr (Option (List (String × Int))) :=
  if pyTruthy sort then
    match parseSortSpec sort with
    | some spec => .ok (some spec)
    | none => .error (.other "TypeError: invalid sort specification")
  else .ok none

/-- BSON-like cross-type rank used when sorting documents whose field values
have different types. -/
def pyRank : PyVal → Nat
  | .pynone => 0
  | .int _ => 1
  | .str _ => 2
  | .list _ => 3
  | .dict _ => 4
  | .frame _ => 5
  | .func _ => 6

/-- A total boolean order on Python values used by the sort model: numeric
and lexicographic within a type, type rank across types. -/
def pyLeB (a b : PyVal) : Bool :=
  match a, b with
  | .int x, .int y => decide (x ≤ y)
  | .str x, .str y => decide (x ≤ y)
  | _, _ => decide (pyRank a ≤ pyRank b)

/-- Compare two documents under a sort specification, field by field. -/
def docLeBy : List (String × Int) → Doc → Doc → Bool
  | [], _, _ => true
  | (f, dir) :: rest, a, b =>
    let av := (a.lookup f).getD .pynone
    let bv := (b.lookup f).getD .pynone
    if pyBeq av bv then docLeBy rest a b
    else if dir ≥ 0 then pyLeB av bv else pyLeB bv av

/-- Insert a document into a sorted list of documents (helper of the sort
model). -/
def insertSorted (le : Doc → Doc → Bool) (x : Doc) : List Doc → List Doc
  | [] => [x]
  | y :: ys => if le x y then x :: y :: ys else y :: insertSorted le x ys

/-- Stable insertion sort of documents: the model of the server-side sort
applied by `Cursor.sort`. -/
def sortDocs (le : Doc → Doc → Bool) : List Doc → List Doc
  | [] => []
  | x :: xs => insertSorted le x (sortDocs le xs)

/-- Python 3 comparisons `skip > 0` / `limit > 0`: fine on an `int`, a
`TypeError` (not a `PyMongoError`) on anything else. -/
def pyGtZero : PyVal → Except PyErr Bool
  | .int n => .ok (decide (0 < n))
  | v => .error (.other ("TypeError: comparison not supported between " ++ pyTypeName v ++ " and int"))

/-- Numeric view of a Python value (used for `skip`/`limit` after the
`> 0` check has succeeded, so only the `int` case is ever reached). -/
def pyToNat : PyVal → Nat
  | .int n => n.toNat
  | _ => 0

/-- The body of `MongoDBClient.find_many` (mongoConnect.py, lines 231-277)
before its `except PyMongoError` handler: default the filter to `{}`, have
the driver validate filter/projection/sort/skip/limit (client-side
`TypeError`s), then iterate the cursor, which is where a driver failure
(`driverFail`) or the server-side query evaluation happens. -/
def findManyBody (db : MongoDb) (driverFail : Option PyErr) (collectionName : String)
    (query : Option PyVal) (projection sort limit skip : PyVal) : Except PyErr (List Doc) := do
  let q := query.getD (.dict [])
  let filterEntries ← checkFilter q
  let _ ← checkProjectionType projection
  let sortSpec ← checkSort sort
  let skipPos ← pyGtZero skip
  let limPos ← pyGtZero limit
  match driverFail with
  | some e => throw e
  | none =>
    let docs0 := (collDocs db collectionName).filter (docMatches filterEntries)
    let docs1 := match sortSpec with
      | some spec => sortDocs (docLeBy spec) docs0
      | none => docs0
    let docs2 := if skipPos then docs1.drop (pyToNat skip) else docs1
    let docs3 := if limPos then docs2.take (pyToNat limit) else docs2
    return applyProjection projection docs3

/-- `MongoDBClient.find_many`: the body above wrapped in
`except PyMongoError: return []`.  Every other exception propagates. -/
def findMany (db : MongoDb) (driverFail : Option PyErr) (collectionName : String)
    (query : Option PyVal) (projection sort limit skip : PyVal) : Except PyErr (List Doc) :=
  match findManyBody db driverFail collectionName query projection sort limit skip with
  | .error (.pyMongo _) => .ok []
  | .error e => .error e
  | .ok docs => .ok docs

/-- `MongoDBClient.count_documents` (mongoConnect.py, lines 279-297):
default the filter to `{}`; a driver failure (`PyMongoError`) is converted
to `0`; an ill-typed filter raises `TypeError`, which is not caught. -/
def countDocuments (db : MongoDb) (driverFail : Bool) (collectionName : String)
    (query : Option PyVal) : Except PyErr Nat :=
  let q := query.getD (.dict [])
  match checkFilter q with
  | .error e => .error e
  | .ok entries =>
    if driverFail then .ok 0
    else .ok ((collDocs db collectionName).filter (docMatches entries)).length

/-- `MongoDBClient.list_collections` (mongoConnect.py, lines 65-76): on a
`PyMongoError` the code logs the exception and then RE-RAISES it (`raise`),
so every driver failure propagates to the caller. -/
def listCollections (db : MongoDb) (driverFail : Option PyErr) : Except PyErr (List String) :=
  match driverFail with
  | none => .ok (db.map (fun c => c.name))
  | some e => .error e

/-- `MongoDBClient.aggregate` (mongoConnect.py, lines 485-507): pymongo
requires the pipeline to be a list (else `TypeError`); the server-side
evaluation of the pipeline is the oracle `aggResult`; a `PyMongoError` is
converted to `[]`. -/
def mongoAggregate (aggResult : List Doc) (driverFail : Bool) (pipeline : PyVal) :
    Except PyErr (List Doc) :=
  match pipeline with
  | .list _ => .ok (if driverFail then [] else aggResult)
  | v => .error (.other ("TypeError: pipeline must be a list, got " ++ pyTypeName v))

/-- `MongoDBClient.list_indexes` (mongoConnect.py, lines 588-602): a
`PyMongoError` is converted to `[]`. -/
def listIndexes (db : MongoDb) (driverFail : Bool) (collectionName : String) : List Doc :=
  if driverFail then [] else collIndexes db collectionName

/-- `MongoDBClient.get_collection_stats` (mongoConnect.py, lines 740-754): a
`PyMongoError` is converted to the empty dict. -/
def getCollectionStats (db : MongoDb) (driverFail : Bool) (collectionName : String) : Doc :=
  if driverFail then [] else collStats db collectionName

/-! ## MongoDBExplorer (TalkToDB/mongoDBExplorer.py) -/

/-- Per-field schema information accumulated by
`MongoDBExplorer._infer_schema`: the list of observed type names (appended
in first-occurrence order, duplicate-free), a truncated sample rendering of
the first observed value, and the possible-reference flag set when the field
name ends in `"Id"` or equals `"_id"`. -/
structure FieldInfo where
  types : List String
  sample : String
  possibleReference : Bool
deriving Repr

/-- `str(value)[:100] + ("..." if len(str(value)) > 100 else "")`. -/
def sampleOf (v : PyVal) : String :=
  let s := pyStr v
  strTake s 100 ++ (if s.length > 100 then "..." else "")

/-- The entry `_infer_schema` creates the first time a field is seen. -/
def initFieldInfo (field : String) (v : PyVal) : FieldInfo :=
  { types := [pyTypeName v]
    sample := sampleOf v
    possibleReference := strEndsWith field "Id" || field == "_id" }

/-- `if field_type not in all_fields[field]["types"]: append(field_type)`. -/
def addFieldType (info : FieldInfo) (t : String) : FieldInfo :=
  if info.types.contains t then info else { info with types := info.types ++ [t] }

/-- Update the accumulated field map for one `(field, value)` pair of a
document, as the inner loop of `_infer_schema` does: update the existing
entry in place or append a fresh one. -/
def updateField : List (String × FieldInfo) → String → PyVal → List (String × FieldInfo)
  | [], field, v => [(field, initFieldInfo field v)]
  | (f, info) :: rest, field, v =>
    if f == field then (f, addFieldType info (pyTypeName v)) :: rest
    else (f, info) :: updateField rest field v

/-- Process all `(field, value)` pairs of one document. -/
def processDocFields (m : List (String × FieldInfo)) (doc : Doc) : List (String × FieldInfo) :=
  doc.foldl (fun acc kv => updateField acc kv.1 kv.2) m

/-- `MongoDBExplorer._infer_schema` (mongoDBExplorer.py, lines 88-114):
returns `{}` for an empty sample, otherwise folds every field of every
sampled document into the field map. -/
def inferSchema (documents : List Doc) : List (String × FieldInfo) :=
  if documents.isEmpty then []
  else documents.foldl processDocFields []

/-- One relationship record produced by
`MongoDBExplorer._identify_relationships`; `relType` is `some "array"` for
the array-of-references rule and `none` otherwise (the Python dict carries a
`"type": "array"` key only in that case). -/
structure Relationship where
  fromCollection : String
  fromField : String
  toCollection : String
  toField : String
  confidence : String
  relType : Option String
deriving Repr, DecidableEq

/-- `MongoDBExplorer._identify_relationships` (mongoDBExplorer.py, lines
116-157), over the `collections → info` map of the exploration snapshot
(`schema` is the only part of the info it reads). -/
def identifyRelationships (collectionsInfo : List (String × List (String × FieldInfo))) :
    List Relationship :=
  collectionsInfo.flatMap (fun c =>
    c.2.flatMap (fun f =>
      (if strEndsWith f.1 "Id" || f.1 == "_id" then
        collectionsInfo.flatMap (fun other =>
          if other.1 == c.1 then []
          else if f.1.dropRight 2 ++ "s" == other.1 || f.1 == "_id" then
            [{ fromCollection := c.1
               fromField := f.1
               toCollection := other.1
               toField := "_id"
               confidence := if f.1 != "_id" then "high" else "medium"
               relType := none }]
          else [])
      else [])
      ++
      (if f.2.types.contains "list" && collectionsInfo.any (fun o => o.1 == f.1) then
        [{ fromCollection := c.1
           fromField := f.1
           toCollection := f.1
           toField := "_id"
           confidence := "medium"
           relType := some "array" }]
      else [])))

/-- The per-collection part of the exploration snapshot built by
`MongoDBExplorer._explore_collection`. -/
structure CollectionInfo where
  count : Nat
  stats : Doc
  schema : List (String × FieldInfo)
  indexes : List Doc
  sampleDocuments : List Doc
deriving Repr

/-- Which of the driver calls made while exploring one collection fail with
a `PyMongoError` (oracle input). -/
structure CollectionCallFails where
  statsFail : Bool
  countFail : Bool
  findFail : Bool
  indexesFail : Bool

/-- `MongoDBExplorer._explore_collection` (mongoDBExplorer.py, lines
53-86): collection stats (failure converted to `{}` by the client, and the
surrounding `try/except` would convert any other failure to an error dict),
document count (failure converted to 0), a sample of up to
`min(count, 5)` documents sorted by `_id`, the inferred schema and the
index list. -/
def exploreCollection (db : MongoDb) (fails : CollectionCallFails) (collectionName : String) :
    Except PyErr CollectionInfo := do
  let stats := getCollectionStats db fails.statsFail collectionName
  let count ← countDocuments db fails.countFail collectionName none
  let sampleSize := min count 5
  let sampleDocs ← findMany db (if fails.findFail then some (.pyMongo "sample failure") else none)
      collectionName none .pynone (.list [.list [.str "_id", .int 1]]) (.int sampleSize) (.int 0)
  let schema := inferSchema sampleDocs
  let indexes := listIndexes db fails.indexesFail collectionName
  return { count := count
           stats := stats
           schema := schema
           indexes := indexes
           sampleDocuments := sampleDocs }

/-- The exploration snapshot returned by `MongoDBExplorer.explore_database`. -/
structure ExploreResult where
  databaseName : String
  collections : List (String × CollectionInfo)
  relationships : List Relationship
  timestamp : String
deriving Repr

/-- Oracle input to `explore_database`: whether `list_collections` fails
(and how), and which per-collection calls fail. -/
structure ExploreFails where
  listFail : Option PyErr
  perColl : String → CollectionCallFails

/-- `MongoDBExplorer.explore_database` (mongoDBExplorer.py, lines 25-51):
list the collections (a failure there PROPAGATES, see `listCollections`),
explore each, then identify relationships.  `dbName` and `timestamp` stand
for `self.db_client.db.name` and `datetime.utcnow().isoformat()`. -/
def mongoExploreDatabase (db : MongoDb) (dbName timestamp : String) (fails : ExploreFails) :
    Except PyErr ExploreResult := do
  let collections ← listCollections db fails.listFail
  let collectionsInfo ← collections.mapM (fun name =>
    (exploreCollection db (fails.perColl name) name).map (fun info => (name, info)))
  let relationships := identifyRelationships
    (collectionsInfo.map (fun c => (c.1, c.2.schema)))
  return { databaseName := dbName
           collections := collectionsInfo
           relationships := relationships
           timestamp := timestamp }

/-- A pandas DataFrame as the explorer operations produce it: built from a
non-empty list of record dicts, the empty frame `pd.DataFrame()`, or the
single-column error frame `pd.DataFrame({"error": [msg]})` the SQL explorer
returns on failure. -/
inductive PdFrame where
  | ofDocs (docs : List Doc)
  | empty
  | errorFrame (msg : String)
deriving Repr

/-- `MongoDBExplorer.execute_query` (mongoDBExplorer.py, lines 159-193):
read `query` / `limit` / `sort` / `projection` out of `query_params` with
the source defaults, call `find_many`, and wrap the result list in a
DataFrame (`pd.DataFrame()` when the list is empty).  There is NO
`try/except` here: whatever `find_many` lets escape, escapes. -/
def mongoExecuteQuery (db : MongoDb) (driverFail : Option PyErr) (collectionName : String)
    (queryParams : List (String × PyVal)) : Except PyErr PdFrame := do
  let query := dictGet queryParams "query" (.dict [])
  let limit := dictGet queryParams "limit" (.int 100)
  let sort := dictGet queryParams "sort" .pynone
  let projection := dictGet queryParams "projection" .pynone
  let results ← findMany db driverFail collectionName (some query) projection sort limit (.int 0)
  return (if results.isEmpty then PdFrame.empty else PdFrame.ofDocs results)

/-- `MongoDBExplorer.execute_aggregation` (mongoDBExplorer.py, lines
195-214): run the client `aggregate` (which converts `PyMongoError` to `[]`)
and wrap the result list in a DataFrame. -/
def mongoExecuteAggregation (aggResult : List Doc) (driverFail : Bool) (pipeline : PyVal) :
    Except PyErr PdFrame := do
  let results ← mongoAggregate aggResult driverFail pipeline
  return (if results.isEmpty then PdFrame.empty else PdFrame.ofDocs results)

/-- The overview block `generate_notes` emits per collection. -/
def mongoOverviewLines (c : String × CollectionInfo) : List String :=
  ["### " ++ c.1,
   "- Document count: " ++ toString c.2.count,
   "- Fields: " ++ String.intercalate ", " (c.2.schema.map (fun f => f.1)),
   ""]

/-- One line of the relationships section of the Mongo notes. -/
def relationshipLine (r : Relationship) : String :=
  "- " ++ r.fromCollection ++ "." ++ r.fromField ++ " → " ++ r.toCollection ++ "." ++
    r.toField ++ " (Confidence: " ++ r.confidence ++ ")"

/-- Schema detail lines per field (the `if "sample" in field_info` guard in
the source is always true: every entry is created with a sample). -/
def fieldDetailLines (f : String × FieldInfo) : List String :=
  ["- " ++ f.1 ++ ": " ++ String.intercalate ", " f.2.types,
   "  - Sample: " ++ f.2.sample]

/-- Rendering of `json.dumps(sample_doc, indent=2, default=str)`; only its
length (for the 500-character truncation) matters downstream. -/
def docJson (d : Doc) : String := pyStr (.dict d)

/-- The fenced sample-document block (emitted only when the sample list is
non-empty). -/
def sampleDocLines (docs : List Doc) : List String :=
  match docs with
  | [] => []
  | d :: _ =>
    let s := docJson d
    let s := if s.length > 500 then strTake s 500 ++ "..." else s
    ["```json\n" ++ s ++ "\n```"]

/-- The detail block `generate_notes` emits per collection. -/
def collectionDetailLines (c : String × CollectionInfo) : List String :=
  ["### " ++ c.1, "#### Schema"]
    ++ c.2.schema.flatMap fieldDetailLines
    ++ ["", "#### Sample Document"]
    ++ sampleDocLines c.2.sampleDocuments
    ++ [""]

/-- `MongoDBExplorer.generate_notes` (mongoDBExplorer.py, lines 216-268): a
pure function of the stored exploration snapshot — it performs no driver
calls.  `none` models the falsy `self.exploration_notes = {}` before any
exploration. -/
def mongoGenerateNotes (explorationNotes : Option ExploreResult) : String :=
  match explorationNotes with
  | none => "Database has not been explored yet. Call explore_database() first."
  | some r =>
    String.intercalate "\n"
      (["## MongoDB Database: " ++ r.databaseName,
        "Explored on: " ++ r.timestamp,
        "Found " ++ toString r.collections.length ++ " collections",
        "",
        "## Collections Overview"]
        ++ r.collections.flatMap mongoOverviewLines
        ++ (if !r.relationships.isEmpty then
              ["## Identified Relationships"] ++ r.relationships.map relationshipLine ++ [""]
            else [])
        ++ ["## Collection Details"]
        ++ r.collections.flatMap collectionDetailLines)

/-! ## SQLDatabaseExplorer (TalkToDB/DB_Interfaces/SQLDBExplorer.py) -/

/-- Column metadata as `inspector.get_columns` reports it. -/
structure SqlColumn where
  name : String
  colType : String
  nullable : Bool
  colDefault : Option String
deriving Repr

/-- Foreign-key metadata as `inspector.get_foreign_keys` reports it. -/
structure SqlFK where
  constrainedColumns : List String
  referredTable : String
  referredColumns : List String
  fkName : String
deriving Repr, DecidableEq

/-- Index metadata as `inspector.get_indexes` reports it. -/
structure SqlIndex where
  idxName : String
  unique : Bool
  columnNames : List String
deriving Repr

/-- One SQL table of the backend: catalog metadata plus its rows. -/
structure SqlTable where
  name : String
  columns : List SqlColumn
  rows : List Doc
  primaryKey : List String
  foreignKeys : List SqlFK
  indexes : List SqlIndex
deriving Repr

/-- The per-column schema entry `_explore_table` builds: the DECLARED
column type from the catalog (`str(column['type'])`), nullability and
`str(column.get('default', 'None'))`. -/
structure SqlFieldInfo where
  typeStr : String
  nullable : Bool
  defaultStr : String
deriving Repr

/-- The per-table part of the SQL exploration snapshot. -/
structure SqlTableInfo where
  count : Nat
  schema : List (String × SqlFieldInfo)
  primaryKey : List String
  foreignKeys : List SqlFK
  indexes : List SqlIndex
  sampleRows : List Doc
deriving Repr

/-- `SQLDatabaseExplorer._explore_table` (SQLDBExplorer.py, lines 65-116),
on the success path of its backend reads: `count` from `SELECT COUNT(*)`,
`sample_size = min(count, 5) if count else 0`, up to `sample_size` rows via
`SELECT * ... LIMIT`, and a schema taken from the column CATALOG metadata
(not from the sampled rows). -/
def sqlExploreTable (table : SqlTable) : SqlTableInfo :=
  let count := table.rows.length
  let sampleSize := if count ≠ 0 then min count 5 else 0
  let sampleRows := if sampleSize > 0 then table.rows.take sampleSize else []
  let schema := table.columns.map (fun c =>
    (c.name, { typeStr := c.colType
               nullable := c.nullable
               defaultStr := c.colDefault.getD "None" : SqlFieldInfo }))
  { count := count
    schema := schema
    primaryKey := table.primaryKey
    foreignKeys := table.foreignKeys
    indexes := table.indexes
    sampleRows := sampleRows }

/-- One relationship record of `SQLDatabaseExplorer._identify_relationships`
(SQLDBExplorer.py, lines 118-136): read off the explicit foreign keys. -/
structure SqlRelationship where
  fromTable : String
  fromColumns : List String
  toTable : String
  toColumns : List String
  relName : String
  confidence : String
deriving Repr, DecidableEq

/-- `SQLDatabaseExplorer._identify_relationships`: explicit foreign keys
only, always confidence `"high"`. -/
def sqlIdentifyRelationships (tables : List SqlTable) : List SqlRelationship :=
  tables.flatMap (fun t => t.foreignKeys.map (fun fk =>
    { fromTable := t.name
      fromColumns := fk.constrainedColumns
      toTable := fk.referredTable
      toColumns := fk.referredColumns
      relName := fk.fkName
      confidence := "high" }))

/-- `db_name` extraction of `SQLDatabaseExplorer.explore_database` from the
connection string: last `/` component, cut at the first `:`. -/
def sqlDbName (connectionString : String) : String :=
  let dbName := ((connectionString.splitOn "/").getLast?).getD connectionString
  if dbName.contains ':' then ((dbName.splitOn ":").headD dbName) else dbName

/-- The SQL backend oracle: the tables it holds, whether listing the tables
fails, whether the per-table reads (COUNT / SELECT) fail, and the outcome of
`pd.read_sql` per SQL text.  The SQL explorer has NO `try/except` in its
exploration path, so these failures propagate. -/
structure SqlBackend where
  tables : List SqlTable
  listTablesFail : Option String
  tableReadFail : String → Option String
  readSql : String → Except String PdFrame

/-- The SQL exploration snapshot. -/
structure SqlExploreResult where
  databaseName : String
  tables : List (String × SqlTableInfo)
  relationships : List SqlRelationship
  timestamp : String
deriving Repr

/-- `SQLDatabaseExplorer.explore_database` (SQLDBExplorer.py, lines 32-63):
no `try/except` anywhere on this path — a failing `get_table_names`, COUNT
or sample SELECT raises out of the call. -/
def sqlExploreDatabase (backend : SqlBackend) (connectionString timestamp : String) :
    Except String SqlExploreResult := do
  let dbName := sqlDbName connectionString
  match backend.listTablesFail with
  | some e => throw e
  | none =>
    let tablesInfo ← backend.tables.mapM (fun t =>
      match backend.tableReadFail t.name with
      | some e => Except.error e
      | none => Except.ok (t.name, sqlExploreTable t))
    let relationships := sqlIdentifyRelationships backend.tables
    return { databaseName := dbName
             tables := tablesInfo
             relationships := relationships
             timestamp := timestamp }

/-- The SQL text `SQLDatabaseExplorer.execute_query` builds (lines 153-175):
a raw query wins; otherwise `SELECT * FROM table` with optional WHERE /
ORDER BY / LIMIT clauses, OFFSET nested inside LIMIT, each taken only when
the parameter is present and truthy. -/
def sqlBuildQuery (tableName : String) (queryParams : List (String × PyVal)) : String :=
  let qv := dictGet queryParams "query" .pynone
  if (queryParams.lookup "query").isSome && pyTruthy qv then pyStr qv
  else
    let base := "SELECT * FROM " ++ tableName
    let wv := dictGet queryParams "where" .pynone
    let base := if (queryParams.lookup "where").isSome && pyTruthy wv then
      base ++ " WHERE " ++ pyStr wv else base
    let ov := dictGet queryParams "order_by" .pynone
    let base := if (queryParams.lookup "order_by").isSome && pyTruthy ov then
      base ++ " ORDER BY " ++ pyStr ov else base
    let lv := dictGet queryParams "limit" .pynone
    if (queryParams.lookup "limit").isSome && pyTruthy lv then
      let base := base ++ " LIMIT " ++ pyStr lv
      let offv := dictGet queryParams "offset" .pynone
      if (queryParams.lookup "offset").isSome && pyTruthy offv then
        base ++ " OFFSET " ++ pyStr offv
      else base
    else base

/-- The body of `SQLDatabaseExplorer.execute_query` before its catch-all
handler: build the SQL text and run `pd.read_sql` on it. -/
def sqlExecuteQueryBody (readSql : String → Except String PdFrame) (tableName : String)
    (queryParams : List (String × PyVal)) : Except String PdFrame :=
  readSql (sqlBuildQuery tableName queryParams)

/-- `SQLDatabaseExplorer.execute_query` (SQLDBExplorer.py, lines 138-184):
the whole body sits in `try/except Exception`, converting EVERY failure into
the error frame `pd.DataFrame({"error": [str(e)]})`. -/
def sqlExecuteQuery (readSql : String → Except String PdFrame) (tableName : String)
    (queryParams : List (String × PyVal)) : PdFrame :=
  match sqlExecuteQueryBody readSql tableName queryParams with
  | .ok df => df
  | .error e => PdFrame.errorFrame e

/-- Extract a list of strings, as `", ".join(...)` requires; anything else
raises a `TypeError` (caught by the surrounding handler). -/
def pyStrListOf : PyVal → Except String (List String)
  | .list elems => elems.mapM (fun e =>
      match e with
      | .str s => Except.ok s
      | v => Except.error ("TypeError: sequence item: expected str instance, " ++
          pyTypeName v ++ " found"))
  | v => Except.error ("TypeError: can only join an iterable of str, got " ++ pyTypeName v)

/-- The SQL text `SQLDatabaseExplorer.execute_aggregation` builds (lines
200-234): a raw query wins; otherwise `group_by` and `aggregations` are
required (`raise ValueError(...)` with the messages below, caught by the
surrounding handler), and the SELECT / GROUP BY / HAVING / ORDER BY / LIMIT
clauses are assembled from them. -/
def sqlBuildAggQuery (tableName : String) (aggParams : List (String × PyVal)) :
    Except String String := do
  let qv := dictGet aggParams "query" .pynone
  if (aggParams.lookup "query").isSome && pyTruthy qv then
    return pyStr qv
  else
    let gb := dictGet aggParams "group_by" .pynone
    if !((aggParams.lookup "group_by").isSome && pyTruthy gb) then
      throw "group_by is required for aggregation"
    let aggs := dictGet aggParams "aggregations" .pynone
    if !((aggParams.lookup "aggregations").isSome && pyTruthy aggs) then
      throw "aggregations are required"
    let groupByCols ← pyStrListOf gb
    let aggEntries ← match aggs with
      | .dict entries => Except.ok entries
      | v => Except.error ("TypeError: aggregations items are not iterable, got " ++ pyTypeName v)
    let aggCols := aggEntries.map (fun e =>
      pyStr e.2 ++ "(" ++ e.1 ++ ") AS " ++ pyStr e.2 ++ "_" ++ e.1)
    let selectClause := String.intercalate ", " (groupByCols ++ aggCols)
    let groupByClause := String.intercalate ", " groupByCols
    let base := "SELECT " ++ selectClause ++ " FROM " ++ tableName ++ " GROUP BY " ++ groupByClause
    let hv := dictGet aggParams "having" .pynone
    let base := if (aggParams.lookup "having").isSome && pyTruthy hv then
      base ++ " HAVING " ++ pyStr hv else base
    let ov := dictGet aggParams "order_by" .pynone
    let base := if (aggParams.lookup "order_by").isSome && pyTruthy ov then
      base ++ " ORDER BY " ++ pyStr ov else base
    let lv := dictGet aggParams "limit" .pynone
    let base := if (aggParams.lookup "limit").isSome && pyTruthy lv then
      base ++ " LIMIT " ++ pyStr lv else base
    return base

/-- The body of `SQLDatabaseExplorer.execute_aggregation` before its
catch-all handler. -/
def sqlExecuteAggregationBody (readSql : String → Except String PdFrame) (tableName : String)
    (aggParams : List (String × PyVal)) : Except String PdFrame := do
  let q ← sqlBuildAggQuery tableName aggParams
  readSql q

/-- `SQLDatabaseExplorer.execute_aggregation` (SQLDBExplorer.py, lines
186-243): the whole body sits in `try/except Exception`, converting EVERY
failure into the error frame. -/
def sqlExecuteAggregation (readSql : String → Except String PdFrame) (tableName : String)
    (aggParams : List (String × PyVal)) : PdFrame :=
  match sqlExecuteAggregationBody readSql tableName aggParams with
  | .ok df => df
  | .error e => PdFrame.errorFrame e

/-- The overview block the SQL `generate_notes` emits per table. -/
def sqlOverviewLines (t : String × SqlTableInfo) : List String :=
  ["### " ++ t.1,
   "- Row count: " ++ toString t.2.count,
   "- Columns: " ++ String.intercalate ", " (t.2.schema.map (fun f => f.1))]
    ++ (if !t.2.primaryKey.isEmpty then
          ["- Primary Key: " ++ String.intercalate ", " t.2.primaryKey]
        else [])
    ++ [""]

/-- One line of the relationships section of the SQL notes. -/
def sqlRelationshipLine (r : SqlRelationship) : String :=
  "- " ++ r.fromTable ++ "(" ++ String.intercalate ", " r.fromColumns ++ ") → " ++
    r.toTable ++ "(" ++ String.intercalate ", " r.toColumns ++ ")"

/-- Schema detail lines per column of the SQL notes. -/
def sqlColumnDetailLines (f : String × SqlFieldInfo) : List String :=
  ["- " ++ f.1 ++ ": " ++ f.2.typeStr]
    ++ (if !f.2.nullable then ["  - NOT NULL"] else [])
    ++ (if f.2.defaultStr != "None" then ["  - Default: " ++ f.2.defaultStr] else [])

/-- Index lines of the SQL notes (emitted only when the table has indexes). -/
def sqlIndexLines (idxs : List SqlIndex) : List String :=
  if idxs.isEmpty then []
  else
    ["#### Indexes"]
      ++ idxs.map (fun i =>
          "- " ++ i.idxName ++ ": " ++ (if i.unique then "UNIQUE " else "") ++ "(" ++
            String.intercalate ", " i.columnNames ++ ")")
      ++ [""]

/-- Sample-data block of the SQL notes (first sampled row, truncated). -/
def sqlSampleLines (rows : List Doc) : List String :=
  match rows with
  | [] => []
  | r :: _ =>
    let s := docJson r
    let s := if s.length > 500 then strTake s 500 ++ "..." else s
    ["#### Sample Data", "```json\n" ++ s ++ "\n```"]

/-- The detail block the SQL `generate_notes` emits per table. -/
def sqlTableDetailLines (t : String × SqlTableInfo) : List String :=
  ["### " ++ t.1, "#### Schema"]
    ++ t.2.schema.flatMap sqlColumnDetailLines
    ++ [""]
    ++ sqlIndexLines t.2.indexes
    ++ sqlSampleLines t.2.sampleRows
    ++ [""]

/-- `SQLDatabaseExplorer.generate_notes` (SQLDBExplorer.py, lines 245-317):
a pure function of the stored exploration snapshot — no driver calls. -/
def sqlGenerateNotes (explorationNotes : Option SqlExploreResult) : String :=
  match explorationNotes with
  | none => "Database has not been explored yet. Call explore_database() first."
  | some r =>
    String.intercalate "\n"
      (["## SQL Database: " ++ r.databaseName,
        "Explored on: " ++ r.timestamp,
        "Found " ++ toString r.tables.length ++ " tables",
        "",
        "## Tables Overview"]
        ++ r.tables.flatMap sqlOverviewLines
        ++ (if !r.relationships.isEmpty then
              ["## Identified Relationships"] ++ r.relationships.map sqlRelationshipLine ++ [""]
            else [])
        ++ ["## Table Details"]
        ++ r.tables.flatMap sqlTableDetailLines)

/-! ## StockAnalyzer.get_latest_trading_day
(Financial_Research_Company_USStockExchange/InfoFetch.py, lines 219-226) -/

/-- Python `date.weekday()` over days numbered from an epoch Monday
(day 0 is a Monday, ..., 5 Saturday, 6 Sunday). -/
def pyWeekday (day : Nat) : Nat := day % 7

/-- `StockAnalyzer.get_latest_trading_day`: on Saturday/Sunday
(`weekday >= 5`) go back `weekday - 4` days (to Friday); on every other day
go back exactly one calendar day. -/
def getLatestTradingDay (today : Nat) : Nat :=
  if pyWeekday today ≥ 5 then today - (pyWeekday today - 4) else today - 1

/-! ## The stock-report CLI
(Financial_Research_Company_USStockExchange/cli_tool.py, lines 12-74) -/

/-- The parsed argparse namespace of the CLI. -/
structure CliArgs where
  ticker : String
  inputPath : Option String
  outputDir : String
  skipAnalysis : Bool

/-- Outcome of the analysis `try` block: an exception anywhere inside it
(analyzer construction, `analyze_stock`, writing the JSON dump) or the
value `analyze_stock` returned (its Python truthiness). -/
inductive AnalysisOutcome where
  | raises (msg : String)
  | returns (truthy : Bool) (saveJsonFail : Bool)

/-- External-world oracle for one CLI invocation. -/
structure CliEnv where
  makedirsFail : Bool
  inputExists : String → Bool
  loadDataOk : Bool
  analysisOutcome : AnalysisOutcome
  reportGenFail : Option String

/-- How the process ends: normal return (exit code 0), `sys.exit(1)`, or an
uncaught exception (Python terminates with exit code 1 and a traceback). -/
inductive ExitKind where
  | normal
  | exit1
  | uncaught (msg : String)
deriving Repr, DecidableEq

/-- The process exit code of each way `main` can end. -/
def exitCode : ExitKind → Nat
  | .normal => 0
  | .exit1 => 1
  | .uncaught _ => 1

/-- Python truthiness of `args.input` in `if args.skip_analysis and
args.input:` — `None` and the empty string are falsy. -/
def cliInputTruthy (args : CliArgs) : Bool :=
  match args.inputPath with
  | some s => s != ""
  | none => false

/-- The final `report_gen.generate_report()` call: it sits OUTSIDE every
`try` block, so an exception there is uncaught. -/
def cliGenerateReport (env : CliEnv) : ExitKind :=
  match env.reportGenFail with
  | some m => .uncaught m
  | none => .normal

/-- `main` of cli_tool.py: make the output directory (uncaught on failure),
then either load an existing data file (`sys.exit(1)` when it is missing or
fails to load) or run the analysis (`sys.exit(1)` when anything in the
`try` block raises or the analysis result is falsy), and finally generate
the report. -/
def cliMain (args : CliArgs) (env : CliEnv) : ExitKind :=
  if env.makedirsFail then .uncaught "makedirs failure"
  else if args.skipAnalysis && cliInputTruthy args then
    match args.inputPath with
    | some f =>
      if !(env.inputExists f) then .exit1
      else if !env.loadDataOk then .exit1
      else cliGenerateReport env
    | none => .exit1
  else
    match env.analysisOutcome with
    | .raises _ => .exit1
    | .returns truthy saveJsonFail =>
      if !truthy then .exit1
      else if saveJsonFail then .exit1
      else cliGenerateReport env

/-! ## CodeExecutor (TalkToCSV/backend/code_executor.py) -/

/-- The DataFrame the executor operates on; its contents are opaque to the
executor, so rows of string cells suffice. -/
structure DataFrame where
  rows : List (List (String × String))
deriving Repr, DecidableEq

/-- `df.head()`: the first 5 rows. -/
def dfHead (df : DataFrame) : DataFrame := ⟨df.rows.take 5⟩

/-- One import statement found by walking the parsed AST: an `import name`
alias (`ast.Import`, one entry per alias) or a `from module import ...`
(`ast.ImportFrom`; `none` for a relative `from . import ...`, whose
`node.module` is `None` and which the guard `if node.module:` skips). -/
inductive ImportStmt where
  | imp (moduleName : String)
  | fromImp (moduleName : Option String)
deriving Repr, DecidableEq

/-- A generated code string together with its parse: `parsed = none` models
`ast.parse` raising `SyntaxError`, otherwise the list of import statements
an AST walk finds. -/
structure PyCode where
  text : String
  parsed : Option (List ImportStmt)
deriving Repr

/-- The keys of `self.allowed_modules` (code_executor.py, lines 380-387). -/
def allowedModuleNames : List String :=
  ["pandas", "pd", "numpy", "np", "matplotlib.pyplot", "plt"]

/-- `name.split('.')[0]`: the prefix before the first dot. -/
def topLevelModule (m : String) : String :=
  (m.toList.takeWhile (fun c => c != Char.ofNat 46)).asString

/-- Is one import statement rejected by `_is_code_safe`?  The top-level
component of the imported module must be an allowed-module key. -/
def importUnsafe : ImportStmt → Bool
  | .imp nm => !(allowedModuleNames.contains (topLevelModule nm))
  | .fromImp (some m) => !(allowedModuleNames.contains (topLevelModule m))
  | .fromImp none => false

/-- The blocked substrings of `_is_code_safe` (code_executor.py, lines
544-553). -/
def unsafePatterns : List String :=
  ["open(", "file(", "__import__", "eval(", "exec(",
   "subprocess", "os.", "sys.", "shutil", "pathlib",
   "request", "socket", "ftplib"]

/-- Does the character list contain the pattern as a contiguous run? -/
def hasSubList : List Char → List Char → Bool
  | [], pat => pat.isEmpty
  | c :: rest, pat => startsWithList (c :: rest) pat || hasSubList rest pat

/-- Is `pat` a substring of `s` (Python `pat in s`)? -/
def containsSub (s pat : String) : Bool :=
  hasSubList s.toList pat.toList

/-- `CodeExecutor._is_code_safe` (code_executor.py, lines 515-557): reject
on `SyntaxError`, on any import whose top-level module is not an allowed
key, and on any blocked substring of the raw code text. -/
def isCodeSafe (c : PyCode) : Bool :=
  match c.parsed with
  | none => false
  | some imports =>
    if imports.any importUnsafe then false
    else if unsafePatterns.any (fun p => containsSub c.text p) then false
    else true

/-- What `exec(modified_code, exec_globals)` did: normal completion with the
final value of `exec_globals['df']`, the other globals the code defined, and
the captured stdout/stderr — or an exception. -/
inductive ExecOutcome where
  | ok (dfAfter : DataFrame) (globalsAfter : List (String × PyVal)) (stdout stderrText : String)
  | raise (msg : String) (stderrText : String)

/-- The result dictionary `execute_code` returns. -/
structure ExecResultDict where
  status : String
  message : String
  output : Option String
  result : Option PyVal
deriving Repr

/-- The fixed unsafe-code result (code_executor.py, lines 406-413). -/
def unsafeResultDict : ExecResultDict :=
  { status := "error"
    message := "Code contains unsafe operations"
    output := none
    result := none }

/-- The fallback variable names probed when no `result` global exists. -/
def fallbackVarNames : List String :=
  ["output", "summary", "analysis", "stats", "df_result", "data"]

/-- `callable(...)` over embedded values. -/
def isCallable : PyVal → Bool
  | .func _ => true
  | _ => false

/-- The fallback-variable loop: first name that is present in the globals,
is not `df` and is not callable. -/
def firstFallbackVar : List String → List (String × PyVal) → PyVal
  | [], _ => .pynone
  | v :: rest, g =>
    match g.lookup v with
    | some val => if v != "df" && !(isCallable val) then val else firstFallbackVar rest g
    | none => firstFallbackVar rest g

/-- Result extraction of `execute_code`: the `result` global if set and not
`None`, else the first fallback variable, else `df.head()` of the ORIGINAL
caller DataFrame. -/
def extractResult (globalsAfter : List (String × PyVal)) (df : DataFrame) : PyVal :=
  let r := (globalsAfter.lookup "result").getD .pynone
  if !(pyBeq r .pynone) then r
  else
    let f := firstFallbackVar fallbackVarNames globalsAfter
    if !(pyBeq f .pynone) then f else .frame (dfHead df).rows

/-- `CodeExecutor._process_result`: serialization of the result value for
the JSON response; it converts without touching any DataFrame in place, so
the embedding keeps the value itself. -/
def processResult (v : PyVal) : PyVal := v

/-- `CodeExecutor.execute_code` (code_executor.py, lines 389-484) over an
explicit heap of DataFrame objects (`dfRef` is the caller's object).  If
`_is_code_safe` rejects the code, the fixed error dict is returned and
`exec` never runs (third component `false`).  Otherwise
`exec_globals['df'] = df.copy()` allocates a FRESH heap cell, the
import-stripped code runs against it (the `effect` oracle — import
stripping by `_remove_imports` is absorbed into it), and the result dict is
assembled; on an exception the fallback result is `df.head()` of the
caller's frame (a read, not a write). -/
def executeCode (code : PyCode) (effect : DataFrame → ExecOutcome)
    (heap : List DataFrame) (dfRef : Nat) : List DataFrame × ExecResultDict × Bool :=
  if !(isCodeSafe code) then
    (heap, unsafeResultDict, false)
  else
    let df := heap.getD dfRef ⟨[]⟩
    let copyRef := heap.length
    let heap1 := heap ++ [df]
    match effect (heap1.getD copyRef ⟨[]⟩) with
    | .ok dfAfter globalsAfter stdout stderrText =>
      let heap2 := heap1.set copyRef dfAfter
      let result := extractResult globalsAfter df
      (heap2,
       { status := "success"
         message := "Code executed successfully"
         output := some (if stdout != "" then stdout else stderrText)
         result := some (processResult result) },
       true)
    | .raise msg stderrText =>
      let finalErr := if stderrText != "" then stderrText
        else "Traceback (most recent call last): " ++ msg
      (heap1,
       { status := "error"
         message := "Error executing code: " ++ msg
         output := some finalErr
         result := some (processResult (.frame (dfHead df).rows)) },
       true)

/-! ## Specification-side predicates used by the theorems -/

/-- The type names observed for `field` across one flat list of
`(field, value)` entries. -/
def obsTypes (field : String) (es : List (String × PyVal)) : List String :=
  es.filterMap (fun kv =>
    if kv.1 == field then some (pyTypeName kv.2) else none)

/-- The multiset of Python type names observed for `field` across a list of
sampled documents (first the first document's occurrences, then the next,
matching the iteration order of `_infer_schema`). -/
def observedTypeNames (field : String) (docs : List Doc) : List String :=
  obsTypes field (docs.flatMap id)

/-- Are the values `MongoDBExplorer.execute_query` reads out of
`query_params` of the types `MongoDBClient.find_many` and pymongo handle
without raising: a dict filter, an int limit, a valid (or absent/falsy)
sort specification and a dict-or-`None` projection? -/
def wellTypedQueryParams (queryParams : List (String × PyVal)) : Bool :=
  (match dictGet queryParams "query" (.dict []) with
   | .dict _ => true
   | _ => false) &&
  (match dictGet queryParams "limit" (.int 100) with
   | .int _ => true
   | _ => false) &&
  (match checkSort (dictGet queryParams "sort" .pynone) with
   | .ok _ => true
   | .error _ => false) &&
  (match checkProjectionType (dictGet queryParams "projection" .pynone) with
   | .ok _ => true
   | .error _ => false)

/-- Rule 1 of the relationship heuristic, as a predicate: a field that ends
in `"Id"` or is `"_id"`, pointed at a DIFFERENT collection that either
matches the `field[:-2] + "s"` suffix rewrite or — for the `"_id"` field —
is arbitrary. -/
def relFromIdRule (collectionsInfo : List (String × List (String × FieldInfo)))
    (r : Relationship) : Prop :=
  ∃ c ∈ collectionsInfo, ∃ f ∈ c.2, ∃ o ∈ collectionsInfo,
    o.1 ≠ c.1 ∧ (strEndsWith f.1 "Id" = true ∨ f.1 = "_id") ∧
    (f.1.dropRight 2 ++ "s" = o.1 ∨ f.1 = "_id") ∧
    r = { fromCollection := c.1
          fromField := f.1
          toCollection := o.1
          toField := "_id"
          confidence := if f.1 != "_id" then "high" else "medium"
          relType := none }

/-- Rule 2 of the relationship heuristic, as a predicate: a field whose
observed types include `list` and whose NAME is itself a collection name
(possibly the same collection). -/
def relFromArrayRule (collectionsInfo : List (String × List (String × FieldInfo)))
    (r : Relationship) : Prop :=
  ∃ c ∈ collectionsInfo, ∃ f ∈ c.2,
    f.2.types.contains "list" = true ∧ (∃ o ∈ collectionsInfo, o.1 = f.1) ∧
    r = { fromCollection := c.1
          fromField := f.1
          toCollection := f.1
          toField := "_id"
          confidence := "medium"
          relType := some "array" }

/-- The condition under which the CLI reaches report generation without a
`sys.exit(1)`: with `--skip-analysis` and a truthy input path the file must
exist and load; otherwise the analysis must neither raise nor return falsy
data, and the JSON dump must be written. -/
def cliNoExit1 (args : CliArgs) (env : CliEnv) : Prop :=
  if args.skipAnalysis && cliInputTruthy args then
    match args.inputPath with
    | some f => env.inputExists f = true ∧ env.loadDataOk = true
    | none => False
  else
    match env.analysisOutcome with
    | .raises _ => False
    | .returns truthy saveJsonFail => truthy = true ∧ saveJsonFail = false

/-! ## Helper lemmas -/

theorem mem_ite_nil_r {α : Type} (a : α) (c : Prop) [Decidable c] (l : List α) :
    a ∈ (if c then l else []) ↔ c ∧ a ∈ l := by
  split <;> simp_all

theorem mem_ite_nil_l {α : Type} (a : α) (c : Prop) [Decidable c] (l : List α) :
    a ∈ (if c then [] else l) ↔ ¬c ∧ a ∈ l := by
  split <;> simp_all

theorem length_insertSorted (le : Doc → Doc → Bool) (x : Doc) (l : List Doc) :
    (insertSorted le x l).length = l.length + 1 := by
  induction l with
  | nil => rfl
  | cons y ys ih =>
    simp only [insertSorted]
    split <;> simp [ih]

theorem length_sortDocs (le : Doc → Doc → Bool) (l : List Doc) :
    (sortDocs le l).length = l.length := by
  induction l with
  | nil => rfl
  | cons x xs ih => simp [sortDocs, length_insertSorted, ih]

theorem docMatches_nil (d : Doc) : docMatches [] d = true := rfl

theorem filter_docMatches_nil (l : List Doc) : l.filter (docMatches []) = l :=
  List.filter_eq_self.mpr (fun a _ => docMatches_nil a)

theorem countDocuments_empty_filter (db : MongoDb) (name : String) (q : Option PyVal)
    (hq : q = none ∨ q = some (.dict [])) :
    countDocuments db false name q = .ok (collDocs db name).length := by
  rcases hq with rfl | rfl <;>
    · unfold countDocuments
      simp [checkFilter, filter_docMatches_nil]

theorem findMany_sample (db : MongoDb) (name : String) (n : Nat) :
    findMany db none name none .pynone (.list [.list [.str "_id", .int 1]]) (.int (n : Int)) (.int 0) =
      .ok (if 0 < n then (sortDocs (docLeBy [("_id", 1)]) (collDocs db name)).take n
           else sortDocs (docLeBy [("_id", 1)]) (collDocs db name)) := by
  unfold findMany findManyBody
  simp [checkFilter, checkProjectionType, checkSort, pyTruthy, parseSortSpec, parseSortItems,
        pyGtZero, pyToNat, applyProjection, filter_docMatches_nil, Except.instMonad,
        Except.bind, Except.pure]

theorem findMany_sample_fail (db : MongoDb) (name : String) (n : Nat) :
    findMany db (some (.pyMongo "sample failure")) name none .pynone
      (.list [.list [.str "_id", .int 1]]) (.int (n : Int)) (.int 0) = .ok [] := by
  unfold findMany findManyBody
  simp [checkFilter, checkProjectionType, checkSort, pyTruthy, parseSortSpec, parseSortItems,
        pyGtZero, pyToNat, Except.instMonad, Except.bind, Except.pure]

theorem countDocuments_none (db : MongoDb) (cF : Bool) (name : String) :
    countDocuments db cF name none = .ok (if cF then 0 else (collDocs db name).length) := by
  unfold countDocuments
  cases cF <;> simp [checkFilter, filter_docMatches_nil]

theorem exploreCollection_ok (db : MongoDb) (fails : CollectionCallFails) (name : String) :
    ∃ info, exploreCollection db fails name = .ok info := by
  obtain ⟨sF, cF, fF, iF⟩ := fails
  cases cF <;> cases fF <;>
    · simp only [exploreCollection, countDocuments, checkFilter, filter_docMatches_nil,
        Bool.false_eq_true, if_true, if_false, findMany_sample,
        findMany_sample_fail, Except.instMonad, Except.bind, Except.pure]
      exact ⟨_, rfl⟩


theorem exploreCollection_sample_len (db : MongoDb) (sF iF : Bool) (name : String) :
    ∃ info, exploreCollection db ⟨sF, false, false, iF⟩ name = .ok info ∧
      info.sampleDocuments.length = min (collDocs db name).length 5 := by
  simp only [exploreCollection, countDocuments, checkFilter, filter_docMatches_nil,
    Bool.false_eq_true, if_true, if_false, findMany_sample, Except.instMonad,
    Except.bind, Except.pure]
  refine ⟨_, rfl, ?_⟩
  rw [filter_docMatches_nil]
  show (if 0 < min (collDocs db name).length 5 then
      (sortDocs (docLeBy [("_id", 1)]) (collDocs db name)).take (min (collDocs db name).length 5)
    else sortDocs (docLeBy [("_id", 1)]) (collDocs db name)).length =
    min (collDocs db name).length 5
  split
  · rw [List.length_take, length_sortDocs]
    omega
  · rw [length_sortDocs]
    omega

theorem sqlExploreTable_sample_len (table : SqlTable) :
    (sqlExploreTable table).sampleRows.length = min table.rows.length 5 := by
  rcases Nat.eq_zero_or_pos table.rows.length with hL | hL
  · simp [sqlExploreTable, hL]
  · have hne : table.rows.length ≠ 0 := by omega
    have h5 : 0 < min table.rows.length 5 := by omega
    simp [sqlExploreTable, hne, h5, List.length_take]

/-! ## The claims -/

/-- C3: the spec claims `get_latest_trading_day` always returns a
Monday–Friday date no later than now.  The code is a slip against its own
intent: invoked on a Monday (day 14 of the Monday-epoch numbering,
weekday 0), it returns the previous calendar day — a SUNDAY (weekday 6),
never a trading day.  (The result is indeed never later than today.) -/
theorem c3_monday_returns_sunday :
    pyWeekday 14 = 0 ∧ getLatestTradingDay 14 = 13 ∧
    pyWeekday (getLatestTradingDay 14) = 6 ∧ getLatestTradingDay 14 < 14 := by decide

/-- C8: `count_documents` with an omitted (`None`) or empty (`{}`) filter,
when the backend call succeeds, returns exactly the number of documents the
collection holds. -/
theorem c8_count_documents_returns_n :
    ∀ (db : MongoDb) (name : String),
      countDocuments db false name none = Except.ok (collDocs db name).length ∧
      countDocuments db false name (some (.dict [])) = Except.ok (collDocs db name).length := by
  intro db name
  constructor <;>
    · unfold countDocuments
      simp [checkFilter, filter_docMatches_nil]

/-- C4 counterexample: the claim has no success proviso, but when
`count_documents` hits a `PyMongoError` it returns 0, so
`sample_size = min(0, 5) = 0` and `find_many` skips its `if limit > 0`
guard and iterates the WHOLE collection: over a 6-document collection the
schema-inference step reads all 6 documents — more than 5. -/
theorem c4_counterexample :
    (exploreCollection
        [⟨"c", [[("x", PyVal.int 1)], [("x", PyVal.int 2)], [("x", PyVal.int 3)],
                [("x", PyVal.int 4)], [("x", PyVal.int 5)], [("x", PyVal.int 6)]], [], []⟩]
        ⟨false, true, false, false⟩ "c").map
      (fun info => info.sampleDocuments.length) = Except.ok 6 ∧
    ¬ (6 ≤ 5) := by
  refine ⟨rfl, by decide⟩

/-- C4 amended: when the backing count and sample reads succeed, the
schema-inference sampling of both implementations reads exactly
`min(N, 5)` documents/rows of a collection/table with `N` documents/rows —
never more than 5.  (Without that proviso the Mongo side over-reads: see
the counterexample.  The SQL side propagates a failing count instead of
sampling, see C2.) -/
theorem c4_sampling_at_most_five :
    (∀ (db : MongoDb) (name : String) (sF iF : Bool),
      ∃ info, exploreCollection db ⟨sF, false, false, iF⟩ name = Except.ok info ∧
        info.sampleDocuments.length = min (collDocs db name).length 5 ∧
        info.sampleDocuments.length ≤ 5) ∧
    (∀ table : SqlTable,
      (sqlExploreTable table).sampleRows.length = min table.rows.length 5 ∧
      (sqlExploreTable table).sampleRows.length ≤ 5) := by
  constructor
  · intro db name sF iF
    obtain ⟨info, hinfo, hlen⟩ := exploreCollection_sample_len db sF iF name
    refine ⟨info, hinfo, hlen, ?_⟩
    rw [hlen]
    omega
  · intro table
    have h := sqlExploreTable_sample_len table
    refine ⟨h, ?_⟩
    rw [h]
    omega

/-- C9: `execute_code` hands the generated code only the fresh copy
`df.copy()`; whatever the code does to it — and whether execution succeeds,
raises, or the code is rejected — the caller's DataFrame object is
unchanged when the call returns. -/
theorem c9_execute_code_preserves_caller_frame (code : PyCode)
    (effect : DataFrame → ExecOutcome) (heap : List DataFrame) (dfRef : Nat)
    (h : dfRef < heap.length) :
    ((executeCode code effect heap dfRef).1)[dfRef]? = heap[dfRef]? := by
  simp only [executeCode]
  split
  · rfl
  · split
    · rw [List.getElem?_set_ne (by omega), List.getElem?_append, if_pos h]
    · rw [List.getElem?_append, if_pos h]

/-- Witness for C9 at a concrete one-frame heap and an effect that drops
every row of the copy. -/
theorem c9_witness :
    0 < ([(⟨[[("a", "1")]]⟩ : DataFrame)] : List DataFrame).length ∧
    ((executeCode ⟨"result = df.head()", some []⟩
        (fun _ => .ok ⟨[]⟩ [("result", .pynone)] "" "")
        [(⟨[[("a", "1")]]⟩ : DataFrame)] 0).1)[0]? =
      ([(⟨[[("a", "1")]]⟩ : DataFrame)] : List DataFrame)[0]? :=
  ⟨by decide,
   c9_execute_code_preserves_caller_frame ⟨"result = df.head()", some []⟩
     (fun _ => .ok ⟨[]⟩ [("result", .pynone)] "" "")
     [(⟨[[("a", "1")]]⟩ : DataFrame)] 0 (by decide)⟩

/-- C10: code with an import outside the allowed modules, a blocked
substring, or a syntax error is answered with the fixed
`"Code contains unsafe operations"` error dict, the heap is untouched and
`exec` never runs (third component `false`). -/
theorem c10_unsafe_code_rejected (code : PyCode) (effect : DataFrame → ExecOutcome)
    (heap : List DataFrame) (dfRef : Nat)
    (h : (∃ i ∈ code.parsed.getD [], importUnsafe i = true) ∨
         (∃ p ∈ unsafePatterns, containsSub code.text p = true) ∨
         code.parsed = none) :
    executeCode code effect heap dfRef = (heap, unsafeResultDict, false) := by
  have hsafe : isCodeSafe code = false := by
    rcases hp : code.parsed with _ | imports
    · unfold isCodeSafe
      rw [hp]
    · unfold isCodeSafe
      rw [hp]
      rcases h with ⟨i, hi, hiu⟩ | ⟨p, hp2, hps⟩ | hnone
      · rw [hp] at hi
        simp only [Option.getD_some] at hi
        simp only [if_pos (List.any_eq_true.mpr ⟨i, hi, hiu⟩)]
      · by_cases hImp : imports.any importUnsafe = true
        · simp only [if_pos hImp]
        · simp only [if_neg hImp,
            if_pos (List.any_eq_true.mpr ⟨p, hp2, hps⟩)]
      · rw [hp] at hnone
        exact absurd hnone (by simp)
  simp [executeCode, hsafe]

/-- Witness for C10: `import os` is outside the allowed modules, so the
executor rejects it with the fixed error dict and never runs it. -/
theorem c10_witness :
    ((∃ i ∈ (PyCode.mk "import os" (some [.imp "os"])).parsed.getD [], importUnsafe i = true) ∨
     (∃ p ∈ unsafePatterns, containsSub (PyCode.mk "import os" (some [.imp "os"])).text p = true) ∨
     (PyCode.mk "import os" (some [.imp "os"])).parsed = none) ∧
    executeCode (PyCode.mk "import os" (some [.imp "os"]))
      (fun _ => .raise "blocked" "") [] 0 = ([], unsafeResultDict, false) :=
  ⟨Or.inl ⟨.imp "os", by decide, by decide⟩,
   c10_unsafe_code_rejected (PyCode.mk "import os" (some [.imp "os"]))
     (fun _ => .raise "blocked" "") [] 0
     (Or.inl ⟨.imp "os", by decide, by decide⟩)⟩

/-- C7 counterexample: with `--skip-analysis` and an input file that EXISTS,
a failed `report_gen.load_data` also exits with code 1 — the claim allows
exit 1 only for a missing input file or a failed analysis (none of which
happened here: the analysis oracle even holds a successful outcome), so its
"0 in every other case" half is false. -/
theorem c7_counterexample :
    exitCode (cliMain ⟨"AAPL", some "data.json", "reports", true⟩
      ⟨false, fun _ => true, false, .returns true false, none⟩) = 1 := by rfl

/-- C7 amended: the exit code is 0 exactly when directory creation succeeds,
the chosen data path succeeds (file present AND loadable under
`--skip-analysis` with a truthy input; otherwise the analysis neither raises
nor returns falsy data and the JSON dump writes), and report generation does
not raise; it is 1 in every other case (by `sys.exit(1)` or by an uncaught
traceback). -/
theorem c7_amended (args : CliArgs) (env : CliEnv) :
    exitCode (cliMain args env) = 0 ↔
      env.makedirsFail = false ∧ cliNoExit1 args env ∧ env.reportGenFail = none := by
  obtain ⟨mk, ie, ld, ao, rg⟩ := env
  simp only [cliMain, cliNoExit1, cliGenerateReport]
  cases mk
  · cases hsk : (args.skipAnalysis && cliInputTruthy args)
    · cases ao with
      | raises m => simp [exitCode]
      | returns t sj => cases t <;> cases sj <;> cases rg <;> simp [exitCode]
    · rcases args.inputPath with _ | f
      · cases ao <;> simp [exitCode]
      · cases hie : ie f <;> cases ld <;> cases rg <;> simp [exitCode, hie]
  · simp [exitCode]

theorem applyProjection_nil (p : PyVal) : applyProjection p [] = [] := by
  cases p <;> rfl

theorem collDocs_not_found (db : MongoDb) (collectionName : String)
    (h : db.find? (fun c => c.name == collectionName) = none) :
    collDocs db collectionName = [] := by
  simp [collDocs, h]

theorem findMany_wellTyped (db : MongoDb) (fail : Option PyErr) (name : String)
    (qe : List (String × PyVal)) (proj sort : PyVal) (n : Int)
    (hproj : ∃ u, checkProjectionType proj = .ok u)
    (hsort : ∃ s, checkSort sort = .ok s)
    (hfail : fail = none ∨ ∃ m, fail = some (.pyMongo m)) :
    ∃ docs, findMany db fail name (some (.dict qe)) proj sort (.int n) (.int 0) = .ok docs := by
  obtain ⟨u, hu⟩ := hproj
  obtain ⟨sspec, hs⟩ := hsort
  rcases hfail with rfl | ⟨m, rfl⟩ <;>
    · simp [findMany, findManyBody, checkFilter, hu, hs, pyGtZero,
        Except.instMonad, Except.bind, Except.pure]

theorem findMany_wellTyped_empty (db : MongoDb) (name : String)
    (qe : List (String × PyVal)) (proj sort : PyVal) (n : Int)
    (hproj : ∃ u, checkProjectionType proj = .ok u)
    (hsort : ∃ s, checkSort sort = .ok s)
    (hempty : collDocs db name = []) :
    findMany db none name (some (.dict qe)) proj sort (.int n) (.int 0) = .ok [] := by
  obtain ⟨u, hu⟩ := hproj
  obtain ⟨sspec, hs⟩ := hsort
  simp [findMany, findManyBody, checkFilter, hu, hs, pyGtZero, hempty,
    applyProjection_nil, Except.instMonad, Except.bind, Except.pure]
  rcases sspec with _ | spec <;> simp [sortDocs, applyProjection_nil]

theorem wellTyped_dest (params : List (String × PyVal))
    (h : wellTypedQueryParams params = true) :
    (∃ qe, dictGet params "query" (.dict []) = .dict qe) ∧
    (∃ n : Int, dictGet params "limit" (.int 100) = .int n) ∧
    (∃ s, checkSort (dictGet params "sort" .pynone) = .ok s) ∧
    (∃ u, checkProjectionType (dictGet params "projection" .pynone) = .ok u) := by
  unfold wellTypedQueryParams at h
  simp only [Bool.and_eq_true] at h
  obtain ⟨⟨⟨h1, h2⟩, h3⟩, h4⟩ := h
  refine ⟨?_, ?_, ?_, ?_⟩
  · rcases hv : dictGet params "query" (.dict []) with n | s | _ | l | e | fr | fn <;>
      rw [hv] at h1 <;> simp at h1
    exact ⟨e, rfl⟩
  · rcases hv : dictGet params "limit" (.int 100) with n | s | _ | l | e | fr | fn <;>
      rw [hv] at h2 <;> simp at h2
    exact ⟨n, rfl⟩
  · rcases hv : checkSort (dictGet params "sort" .pynone) with e | s
    · rw [hv] at h3
      simp at h3
    · exact ⟨s, rfl⟩
  · rcases hv : checkProjectionType (dictGet params "projection" .pynone) with e | u
    · rw [hv] at h4
      simp at h4
    · exact ⟨u, rfl⟩

/-- C1 counterexample: the claim quantifies over EVERY `query_params` dict,
but the MongoDB `execute_query` only survives `PyMongoError`s — an
ill-typed parameter such as `{"limit": "ten"}` makes `find_many` evaluate
`limit > 0` on a string, and the resulting `TypeError` propagates out of
`execute_query` unhandled (here on a nonexistent collection of an empty
database). -/
theorem c1_counterexample :
    mongoExecuteQuery [] none "users" [("limit", PyVal.str "ten")] =
      Except.error (PyErr.other "TypeError: comparison not supported between str and int") := by
  rfl

/-- C1 amended: the SQL `execute_query` converts every failure of its body
into a returned frame (never an exception); the MongoDB `execute_query`
returns a DataFrame — `pd.DataFrame()` on a nonexistent collection — for
every WELL-TYPED `query_params` (dict filter, int limit, valid/absent sort,
dict-or-None projection) when driver failures are `PyMongoError`s; but
ill-typed parameter values raise exceptions that propagate (see the
counterexample). -/
theorem c1_amended :
    (∀ (readSql : String → Except String PdFrame) (tableName : String)
        (queryParams : List (String × PyVal)),
      (∃ df, sqlExecuteQueryBody readSql tableName queryParams = .ok df ∧
        sqlExecuteQuery readSql tableName queryParams = df) ∨
      (∃ e, sqlExecuteQueryBody readSql tableName queryParams = .error e ∧
        sqlExecuteQuery readSql tableName queryParams = PdFrame.errorFrame e)) ∧
    (∀ (db : MongoDb) (fail : Option PyErr) (collectionName : String)
        (queryParams : List (String × PyVal)),
      wellTypedQueryParams queryParams = true →
      (fail = none ∨ ∃ m, fail = some (.pyMongo m)) →
      ∃ df, mongoExecuteQuery db fail collectionName queryParams = Except.ok df) ∧
    (∀ (db : MongoDb) (collectionName : String) (queryParams : List (String × PyVal)),
      wellTypedQueryParams queryParams = true →
      db.find? (fun c => c.name == collectionName) = none →
      mongoExecuteQuery db none collectionName queryParams = Except.ok PdFrame.empty) := by
  refine ⟨?_, ?_, ?_⟩
  · intro readSql tableName queryParams
    rcases hb : sqlExecuteQueryBody readSql tableName queryParams with e | df
    · exact Or.inr ⟨e, rfl, by simp [sqlExecuteQuery, hb]⟩
    · exact Or.inl ⟨df, rfl, by simp [sqlExecuteQuery, hb]⟩
  · intro db fail collectionName queryParams hwt hfail
    obtain ⟨⟨qe, hq⟩, ⟨n, hl⟩, ⟨s, hsrt⟩, ⟨u, hpj⟩⟩ := wellTyped_dest queryParams hwt
    obtain ⟨docs, hfm⟩ := findMany_wellTyped db fail collectionName qe
      (dictGet queryParams "projection" .pynone) (dictGet queryParams "sort" .pynone) n
      ⟨u, hpj⟩ ⟨s, hsrt⟩ hfail
    refine ⟨if docs.isEmpty then PdFrame.empty else PdFrame.ofDocs docs, ?_⟩
    simp only [mongoExecuteQuery, hq, hl, Except.instMonad, Except.bind, Except.pure]
    rw [hfm]
  · intro db collectionName queryParams hwt hnf
    obtain ⟨⟨qe, hq⟩, ⟨n, hl⟩, ⟨s, hsrt⟩, ⟨u, hpj⟩⟩ := wellTyped_dest queryParams hwt
    have hfm := findMany_wellTyped_empty db collectionName qe
      (dictGet queryParams "projection" .pynone) (dictGet queryParams "sort" .pynone) n
      ⟨u, hpj⟩ ⟨s, hsrt⟩ (collDocs_not_found db collectionName hnf)
    simp only [mongoExecuteQuery, hq, hl, Except.instMonad, Except.bind, Except.pure]
    rw [hfm]
    rfl

/-- Witness for C1 amended: empty params are well-typed, and querying a
nonexistent collection of an empty database returns the empty frame. -/
theorem c1_witness :
    wellTypedQueryParams [] = true ∧
    mongoExecuteQuery [] none "users" [] = Except.ok PdFrame.empty :=
  ⟨by rfl, (c1_amended.2.2) [] "users" [] (by rfl) (by rfl)⟩

theorem mapM_ok {ε α β : Type} (f : α → Except ε β) (l : List α)
    (h : ∀ a ∈ l, ∃ b, f a = .ok b) : ∃ bs, l.mapM f = .ok bs := by
  induction l with
  | nil => exact ⟨[], rfl⟩
  | cons x xs ih =>
    obtain ⟨b, hb⟩ := h x (List.mem_cons_self x xs)
    obtain ⟨bs, hbs⟩ := ih (fun a ha => h a (List.mem_cons_of_mem x ha))
    refine ⟨b :: bs, ?_⟩
    have hloop : List.mapM.loop f xs [] = Except.ok bs := hbs
    rw [List.mapM_cons]
    simp [hb, hloop, Except.instMonad, Except.bind, Except.pure]

theorem mongoExploreDatabase_ok (db : MongoDb) (dbName ts : String)
    (perColl : String → CollectionCallFails) :
    ∃ r, mongoExploreDatabase db dbName ts ⟨none, perColl⟩ = .ok r := by
  obtain ⟨infos, hinfos⟩ := mapM_ok
    (fun name => (exploreCollection db (perColl name) name).map (fun info => (name, info)))
    (db.map (fun c => c.name))
    (fun name _ => by
      obtain ⟨info, hi⟩ := exploreCollection_ok db (perColl name) name
      refine ⟨(name, info), ?_⟩
      show Except.map (fun info => (name, info)) (exploreCollection db (perColl name) name) =
        Except.ok (name, info)
      rw [hi]
      rfl)
  refine ⟨{ databaseName := dbName
            collections := infos
            relationships := identifyRelationships (infos.map (fun c => (c.1, c.2.schema)))
            timestamp := ts }, ?_⟩
  simp only [mongoExploreDatabase, listCollections, Except.instMonad, Except.bind, Except.pure]
  rw [hinfos]

theorem findMany_pyMongo (db : MongoDb) (name : String) (qe : List (String × PyVal))
    (proj sort : PyVal) (n : Int) (m : String)
    (hproj : ∃ u, checkProjectionType proj = .ok u)
    (hsort : ∃ s, checkSort sort = .ok s) :
    findMany db (some (.pyMongo m)) name (some (.dict qe)) proj sort (.int n) (.int 0) =
      .ok [] := by
  obtain ⟨u, hu⟩ := hproj
  obtain ⟨s, hs⟩ := hsort
  simp [findMany, findManyBody, checkFilter, hu, hs, pyGtZero,
    Except.instMonad, Except.bind, Except.pure]

/-- C2 counterexample: `list_collections` logs a `PyMongoError` and then
RE-RAISES it, so a driver failure while listing collections escapes
`explore_database` — the uniform convert-to-empty/error policy the claim
states does not hold for this operation. -/
theorem c2_counterexample :
    mongoExploreDatabase [] "mydb" "2025-01-01T00:00:00"
      ⟨some (.pyMongo "connection reset"), fun _ => ⟨false, false, false, false⟩⟩ =
      Except.error (.pyMongo "connection reset") := by rfl

/-- C2 amended: the conversion policy holds for the per-collection
exploration steps (stats/count/sample/index failures are converted, so
exploration succeeds whenever listing does), for `execute_query` and
`execute_aggregation` under `PyMongoError` driver failures (both return the
empty frame), for the SQL execute paths (catch-all → error frame), and
`generate_notes` performs no driver calls at all; but a driver failure in
Mongo `list_collections` is re-raised and escapes `explore_database`, and
the SQL exploration path has no handler either, so a failing
`get_table_names` escapes too. -/
theorem c2_amended :
    (∀ (db : MongoDb) (dbName ts : String) (perColl : String → CollectionCallFails),
      ∃ r, mongoExploreDatabase db dbName ts ⟨none, perColl⟩ = Except.ok r) ∧
    (∀ (db : MongoDb) (m collectionName : String)
        (queryParams : List (String × PyVal)),
      wellTypedQueryParams queryParams = true →
      mongoExecuteQuery db (some (.pyMongo m)) collectionName queryParams =
        Except.ok PdFrame.empty) ∧
    (∀ (aggResult : List Doc) (pipelineItems : List PyVal),
      mongoExecuteAggregation aggResult true (.list pipelineItems) =
        Except.ok PdFrame.empty) ∧
    (∀ (readSql : String → Except String PdFrame) (tableName : String)
        (aggParams : List (String × PyVal)) (e : String),
      sqlExecuteAggregationBody readSql tableName aggParams = .error e →
      sqlExecuteAggregation readSql tableName aggParams = PdFrame.errorFrame e) ∧
    (∀ (db : MongoDb) (e : PyErr), listCollections db (some e) = Except.error e) ∧
    (∀ (backend : SqlBackend) (connStr ts : String) (e : String),
      backend.listTablesFail = some e →
      sqlExploreDatabase backend connStr ts = Except.error e) ∧
    (mongoGenerateNotes none =
        "Database has not been explored yet. Call explore_database() first." ∧
      sqlGenerateNotes none =
        "Database has not been explored yet. Call explore_database() first.") := by
  refine ⟨mongoExploreDatabase_ok, ?_, ?_, ?_, ?_, ?_, rfl, rfl⟩
  · intro db m collectionName queryParams hwt
    obtain ⟨⟨qe, hq⟩, ⟨n, hl⟩, ⟨s, hsrt⟩, ⟨u, hpj⟩⟩ := wellTyped_dest queryParams hwt
    have hfm := findMany_pyMongo db collectionName qe
      (dictGet queryParams "projection" .pynone) (dictGet queryParams "sort" .pynone) n m
      ⟨u, hpj⟩ ⟨s, hsrt⟩
    simp only [mongoExecuteQuery, hq, hl, Except.instMonad, Except.bind, Except.pure]
    rw [hfm]
    rfl
  · intro aggResult pipelineItems
    rfl
  · intro readSql tableName aggParams e hb
    simp [sqlExecuteAggregation, hb]
  · intro db e
    rfl
  · intro backend connStr ts e h
    simp only [sqlExploreDatabase, h]
    rfl

/-- Witness for C2 amended: a `PyMongoError` during `find` on a concrete
query is converted into the empty frame by `execute_query`. -/
theorem c2_witness :
    wellTypedQueryParams [("limit", PyVal.int 5)] = true ∧
    mongoExecuteQuery [] (some (.pyMongo "network down")) "users"
      [("limit", PyVal.int 5)] = Except.ok PdFrame.empty :=
  ⟨by rfl, c2_amended.2.1 [] "network down" "users" [("limit", PyVal.int 5)] (by rfl)⟩

/-- C5 counterexample: with two collections `a` (whose schema has only the
ubiquitous `_id` field) and `b`, the heuristic reports a relationship
`a._id → b._id` although the claimed suffix rule does not hold —
`"_id"[:-2] + "s" = "_s" ≠ "b"` (and `"_id"` does not even end in `"Id"`) —
so relationships are NOT produced only by the `xId → xs` string match. -/
theorem c5_counterexample :
    identifyRelationships [("a", [("_id", ⟨["str"], "1", true⟩)]), ("b", [])] =
      [{ fromCollection := "a", fromField := "_id", toCollection := "b", toField := "_id",
         confidence := "medium", relType := none }] ∧
    ("_id".dropRight 2 ++ "s" ≠ "b") ∧ strEndsWith "_id" "Id" = false := by
  refine ⟨?_, by decide, by decide⟩
  rfl

/-- C5 amended: a relationship is reported EXACTLY when one of the code's
three string rules fires: (1) a field ending in `"Id"` whose
`field[:-2] + "s"` rewrite names another collection; (2) the `"_id"` field,
which is paired with EVERY other collection (confidence `medium`); (3) an
array rule: a field with observed type `list` whose name is itself a
collection name (self-reference allowed). -/
theorem c5_amended (collectionsInfo : List (String × List (String × FieldInfo)))
    (r : Relationship) :
    r ∈ identifyRelationships collectionsInfo ↔
      relFromIdRule collectionsInfo r ∨ relFromArrayRule collectionsInfo r := by
  unfold identifyRelationships relFromIdRule relFromArrayRule
  simp only [List.mem_flatMap, List.mem_append, mem_ite_nil_r, mem_ite_nil_l,
    List.mem_singleton, Bool.or_eq_true, Bool.and_eq_true, List.any_eq_true,
    beq_iff_eq, ne_eq]
  constructor
  · rintro ⟨c, hc, f, hf, h⟩
    rcases h with ⟨hcond, o, ho, hne, hmatch, hr⟩ | ⟨hcond3, hr⟩
    · exact Or.inl ⟨c, hc, f, hf, o, ho, hne, hcond, hmatch, hr⟩
    · exact Or.inr ⟨c, hc, f, hf, hcond3.1, hcond3.2, hr⟩
  · rintro (⟨c, hc, f, hf, o, ho, hne, hcond, hmatch, hr⟩ | ⟨c, hc, f, hf, h1, h2, hr⟩)
    · exact ⟨c, hc, f, hf, Or.inl ⟨hcond, o, ho, hne, hmatch, hr⟩⟩
    · exact ⟨c, hc, f, hf, Or.inr ⟨⟨h1, h2⟩, hr⟩⟩

theorem mem_addFieldType (i : FieldInfo) (tn t : String) :
    t ∈ (addFieldType i tn).types ↔ t ∈ i.types ∨ t = tn := by
  unfold addFieldType
  split
  · next hc =>
    have htn : tn ∈ i.types := by simpa using hc
    constructor
    · exact Or.inl
    · rintro (h | rfl)
      · exact h
      · exact htn
  · simp

theorem nodup_addFieldType (i : FieldInfo) (tn : String) (h : i.types.Nodup) :
    (addFieldType i tn).types.Nodup := by
  unfold addFieldType
  split
  · exact h
  · next hc =>
    have htn : tn ∉ i.types := by simpa using hc
    simp [List.nodup_append, h, htn]

theorem lookup_updateField_self (m : List (String × FieldInfo)) (field : String) (v : PyVal) :
    (updateField m field v).lookup field =
      some (match m.lookup field with
            | some i => addFieldType i (pyTypeName v)
            | none => initFieldInfo field v) := by
  induction m with
  | nil => simp [updateField, List.lookup]
  | cons e rest ih =>
    obtain ⟨f, i⟩ := e
    by_cases hf : f = field
    · subst hf
      simp [updateField, List.lookup]
    · have hbf : (field == f) = false := by simp [Ne.symm hf]
      simp [updateField, List.lookup, hf, hbf, ih]

theorem lookup_updateField_ne (m : List (String × FieldInfo)) (field : String) (v : PyVal)
    (k : String) (h : k ≠ field) :
    (updateField m field v).lookup k = m.lookup k := by
  have hkf : (k == field) = false := by simp [h]
  induction m with
  | nil => simp [updateField, List.lookup, hkf]
  | cons e rest ih =>
    obtain ⟨f, i⟩ := e
    by_cases hf : f = field
    · subst hf
      simp [updateField, List.lookup, hkf]
    · have hbf : (f == field) = false := by simp [hf]
      simp [updateField, List.lookup, hbf, ih]

theorem foldl_updateField_spec (es : List (String × PyVal)) :
    ∀ (m : List (String × FieldInfo)),
      (∀ f i, m.lookup f = some i → i.types.Nodup) →
      ∀ (f : String) (i : FieldInfo),
        (es.foldl (fun acc kv => updateField acc kv.1 kv.2) m).lookup f = some i →
        i.types.Nodup ∧
        ∀ t, t ∈ i.types ↔
          (∃ i0, m.lookup f = some i0 ∧ t ∈ i0.types) ∨ t ∈ obsTypes f es := by
  induction es with
  | nil =>
    intro m hm f i hlook
    simp only [List.foldl_nil] at hlook
    refine ⟨hm f i hlook, fun t => ?_⟩
    simp [obsTypes, hlook]
  | cons kv rest ih =>
    obtain ⟨k, v⟩ := kv
    intro m hm f i hlook
    rw [List.foldl_cons] at hlook
    have hm1 : ∀ f2 i2, (updateField m k v).lookup f2 = some i2 → i2.types.Nodup := by
      intro f2 i2 h2
      by_cases hf2 : f2 = k
      · subst hf2
        rw [lookup_updateField_self] at h2
        rcases hmf : m.lookup f2 with _ | i0
        · rw [hmf] at h2
          injection h2 with h2
          rw [← h2]
          simp [initFieldInfo]
        · rw [hmf] at h2
          injection h2 with h2
          rw [← h2]
          exact nodup_addFieldType i0 (pyTypeName v) (hm f2 i0 hmf)
      · rw [lookup_updateField_ne m k v f2 hf2] at h2
        exact hm f2 i2 h2
    obtain ⟨hnd, hmem⟩ := ih (updateField m k v) hm1 f i hlook
    refine ⟨hnd, fun t => ?_⟩
    rw [hmem t]
    by_cases hf : f = k
    · subst hf
      rw [lookup_updateField_self]
      have hobs : obsTypes f ((f, v) :: rest) = pyTypeName v :: obsTypes f rest := by
        simp [obsTypes]
      rw [hobs]
      rcases hmf : m.lookup f with _ | i0
      · simp [initFieldInfo]
      · simp [mem_addFieldType]
        tauto
    · rw [lookup_updateField_ne m k v f hf]
      have hkf : (k == f) = false := by simp [Ne.symm hf]
      have hobs : obsTypes f ((k, v) :: rest) = obsTypes f rest := by
        simp [obsTypes, List.filterMap_cons, Ne.symm hf]
      rw [hobs]

theorem foldl_processDocFields (docs : List Doc) :
    ∀ m, docs.foldl processDocFields m =
      (docs.flatMap id).foldl (fun acc kv => updateField acc kv.1 kv.2) m := by
  induction docs with
  | nil => intro m; rfl
  | cons d ds ih =>
    intro m
    rw [List.foldl_cons, List.flatMap_cons, List.foldl_append]
    exact ih (processDocFields m d)

theorem inferSchema_types_spec (docs : List Doc) (field : String) (info : FieldInfo)
    (h : (inferSchema docs).lookup field = some info) :
    info.types.Nodup ∧ ∀ t, t ∈ info.types ↔ t ∈ observedTypeNames field docs := by
  unfold inferSchema at h
  by_cases hemp : docs.isEmpty
  · rw [if_pos hemp] at h
    simp [List.lookup] at h
  · rw [if_neg hemp, foldl_processDocFields] at h
    obtain ⟨hnd, hmem⟩ := foldl_updateField_spec (docs.flatMap id) []
      (by intro f i hi; simp [List.lookup] at hi) field info h
    refine ⟨hnd, fun t => ?_⟩
    rw [hmem t]
    simp [List.lookup, observedTypeNames]

theorem sql_schema_lookup (cols : List SqlColumn) (field : String) (finfo : SqlFieldInfo)
    (h : (cols.map (fun c => (c.name,
            (⟨c.colType, c.nullable, c.colDefault.getD "None"⟩ : SqlFieldInfo)))).lookup field =
          some finfo) :
    ∃ c ∈ cols, c.name = field ∧ finfo.typeStr = c.colType := by
  induction cols with
  | nil => simp [List.lookup] at h
  | cons c cs ih =>
    simp only [List.map_cons, List.lookup] at h
    by_cases hc : field = c.name
    · have hbt : (field == c.name) = true := by simp [hc]
      rw [hbt] at h
      injection h with h
      exact ⟨c, List.mem_cons_self c cs, hc.symm, by rw [← h]⟩
    · have hbf : (field == c.name) = false := by simp [hc]
      rw [hbf] at h
      obtain ⟨c2, hc2, hn, ht⟩ := ih h
      exact ⟨c2, List.mem_cons_of_mem c hc2, hn, ht⟩

/-- C6 counterexample: the SQL explorer's schema "type" is the DECLARED
catalog type (`str(column['type'])`), not the set of types observed across
the sample: a `VARCHAR`-declared column whose sampled row holds an `int`
still gets `"VARCHAR"`, which is not among the observed type names. -/
theorem c6_counterexample :
    ((sqlExploreTable ⟨"people", [⟨"age", "VARCHAR", true, none⟩],
        [[("age", PyVal.int 1)]], [], [], []⟩).schema.lookup "age" =
      some ⟨"VARCHAR", true, "None"⟩) ∧
    observedTypeNames "age"
      ((sqlExploreTable ⟨"people", [⟨"age", "VARCHAR", true, none⟩],
        [[("age", PyVal.int 1)]], [], [], []⟩).sampleRows) = ["int"] ∧
    ¬ ("VARCHAR" ∈ (["int"] : List String)) := by
  refine ⟨rfl, rfl, by decide⟩

/-- C6 amended: in the MongoDB implementation a field's inferred `types` is
exactly the duplicate-free set of Python type names observed for that field
across the sample; in the SQL implementation a column's schema type is the
declared catalog type of that column, independent of the sampled rows. -/
theorem c6_amended :
    (∀ (docs : List Doc) (field : String) (info : FieldInfo),
      (inferSchema docs).lookup field = some info →
      info.types.Nodup ∧ ∀ t, t ∈ info.types ↔ t ∈ observedTypeNames field docs) ∧
    (∀ (table : SqlTable) (field : String) (finfo : SqlFieldInfo),
      (sqlExploreTable table).schema.lookup field = some finfo →
      ∃ c ∈ table.columns, c.name = field ∧ finfo.typeStr = c.colType) := by
  constructor
  · exact inferSchema_types_spec
  · intro table field finfo h
    exact sql_schema_lookup table.columns field finfo h

/-- Witness for C6 amended: a field observed as `int`, then `str`, then
`int` again gets exactly the duplicate-free type list `["int", "str"]`. -/
theorem c6_witness :
    ((inferSchema [[("a", PyVal.int 1)], [("a", PyVal.str "x")], [("a", PyVal.int 2)]]).lookup "a" =
        some ⟨["int", "str"], "1", false⟩) ∧
    (FieldInfo.mk ["int", "str"] "1" false).types.Nodup ∧
    ("str" ∈ (FieldInfo.mk ["int", "str"] "1" false).types ↔
      "str" ∈ observedTypeNames "a"
        [[("a", PyVal.int 1)], [("a", PyVal.str "x")], [("a", PyVal.int 2)]]) :=
  ⟨rfl,
   (c6_amended.1 [[("a", PyVal.int 1)], [("a", PyVal.str "x")], [("a", PyVal.int 2)]] "a"
      ⟨["int", "str"], "1", false⟩ rfl).1,
   (c6_amended.1 [[("a", PyVal.int 1)], [("a", PyVal.str "x")], [("a", PyVal.int 2)]] "a"
      ⟨["int", "str"], "1", false⟩ rfl).2 "str"⟩
